import Mathlib

/-!
Shallow embedding of `src/main.py` of vuln-cloud-metadata-scanner.

The program is a thin HTTP prober: a `MetadataScanner` class holding a fixed
provider-to-URL map, a `scan_endpoint` method issuing one GET per provider
(with per-provider header injection, redirects disallowed, and a chain of
`except` handlers), a `scan_all_endpoints` loop, and a `main` CLI function
that validates the timeout, scans the selected providers and serializes the
report as JSON to a file or stdout.

The HTTP world is modelled as an oracle `Net : HttpRequest -> NetOutcome`;
the filesystem as an oracle `String -> Option String` (an error message when
opening the output file for writing fails, `none` on success).  Python
exceptions become an explicit `PyExc` type carried in `Except`; the class
hierarchy of the exceptions raised inside the `try` block (requests 2.27+,
where `response.json()` raises `requests.exceptions.JSONDecodeError`, a
subclass of both `RequestException` and `json.JSONDecodeError`) is encoded by
the predicates `isRequestException`, `isJSONDecodeError`, `isException`.
-/

set_option autoImplicit false

namespace VulnScan

/-! JSON values, as produced by `json.loads` / consumed by `json.dumps`. -/

inductive JsonValue : Type where
  | null : JsonValue
  | bool : Bool → JsonValue
  | num : Int → JsonValue
  | str : String → JsonValue
  | arr : List JsonValue → JsonValue
  | obj : List (String × JsonValue) → JsonValue

def lbrace : Char := Char.ofNat 123
def rbrace : Char := Char.ofNat 125

/-- Whitespace skipping of the JSON grammar. -/
def skipWs : List Char → List Char
  | c :: cs => if c = ' ' ∨ c = '\t' ∨ c = '\n' ∨ c = '\r' then skipWs cs else c :: cs
  | [] => []

/-- Body of a JSON string literal, after the opening quote; returns the decoded
characters and the rest of the input.  Common escape sequences are supported;
inputs outside this fragment are rejected (a conservative subset of the
grammar accepted by the Python json module). -/
def parseStringBody : Nat → List Char → Option (List Char × List Char)
  | 0, _ => none
  | _, [] => none
  | fuel + 1, c :: cs =>
    if c = '"' then some ([], cs)
    else if c = '\\' then
      match cs with
      | [] => none
      | e :: cs2 =>
        let dec : Option Char :=
          if e = '"' then some '"'
          else if e = '\\' then some '\\'
          else if e = '/' then some '/'
          else if e = 'n' then some '\n'
          else if e = 't' then some '\t'
          else if e = 'r' then some '\r'
          else none
        match dec with
        | none => none
        | some d => (parseStringBody fuel cs2).map (fun p => (d :: p.1, p.2))
    else (parseStringBody fuel cs).map (fun p => (c :: p.1, p.2))

def digitsToNat (acc : Nat) : List Char → Nat
  | [] => acc
  | c :: cs => digitsToNat (acc * 10 + (c.toNat - '0'.toNat)) cs

/-- Integer literals (the fragment of JSON numbers this development needs). -/
def parseIntLit (cs : List Char) : Option (Int × List Char) :=
  match cs with
  | '-' :: rest =>
    let ds := rest.takeWhile Char.isDigit
    if ds.isEmpty then none
    else some (-(Int.ofNat (digitsToNat 0 ds)), rest.dropWhile Char.isDigit)
  | _ =>
    let ds := cs.takeWhile Char.isDigit
    if ds.isEmpty then none
    else some (Int.ofNat (digitsToNat 0 ds), cs.dropWhile Char.isDigit)

mutual

/-- Recursive-descent JSON value parsing, with fuel bounding nesting depth. -/
def parseValue : Nat → List Char → Option (JsonValue × List Char)
  | 0, _ => none
  | fuel + 1, cs =>
    match skipWs cs with
    | [] => none
    | 'n' :: 'u' :: 'l' :: 'l' :: rest => some (.null, rest)
    | 't' :: 'r' :: 'u' :: 'e' :: rest => some (.bool true, rest)
    | 'f' :: 'a' :: 'l' :: 's' :: 'e' :: rest => some (.bool false, rest)
    | c :: rest =>
      if c = '"' then
        (parseStringBody (rest.length + 1) rest).map (fun p => (.str (String.mk p.1), p.2))
      else if c = '[' then
        parseItems fuel (skipWs rest)
      else if c = lbrace then
        parseMembers fuel (skipWs rest)
      else if c = '-' ∨ c.isDigit then
        (parseIntLit (c :: rest)).map (fun p => (.num p.1, p.2))
      else none

/-- Elements of a JSON array, positioned after the opening bracket. -/
def parseItems : Nat → List Char → Option (JsonValue × List Char)
  | 0, _ => none
  | fuel + 1, cs =>
    match cs with
    | ']' :: rest => some (.arr [], rest)
    | _ =>
      match parseItemsRest fuel cs with
      | none => none
      | some (xs, rest) => some (.arr xs, rest)

/-- Nonempty comma-separated array elements. -/
def parseItemsRest : Nat → List Char → Option (List JsonValue × List Char)
  | 0, _ => none
  | fuel + 1, cs =>
    match parseValue fuel cs with
    | none => none
    | some (v, rest) =>
      match skipWs rest with
      | ',' :: rest2 =>
        match parseItemsRest fuel rest2 with
        | none => none
        | some (xs, rest3) => some (v :: xs, rest3)
      | ']' :: rest2 => some ([v], rest2)
      | _ => none

/-- Members of a JSON object, positioned after the opening brace. -/
def parseMembers : Nat → List Char → Option (JsonValue × List Char)
  | 0, _ => none
  | fuel + 1, cs =>
    match cs with
    | c :: rest =>
      if c = rbrace then some (.obj [], rest)
      else
        match parseMembersRest fuel (c :: rest) with
        | none => none
        | some (kvs, rest2) => some (.obj kvs, rest2)
    | [] => none

/-- Nonempty comma-separated object members. -/
def parseMembersRest : Nat → List Char → Option (List (String × JsonValue) × List Char)
  | 0, _ => none
  | fuel + 1, cs =>
    match skipWs cs with
    | '"' :: rest =>
      match parseStringBody (rest.length + 1) rest with
      | none => none
      | some (kcs, rest2) =>
        match skipWs rest2 with
        | ':' :: rest3 =>
          match parseValue fuel rest3 with
          | none => none
          | some (v, rest4) =>
            match skipWs rest4 with
            | ',' :: rest5 =>
              match parseMembersRest fuel rest5 with
              | none => none
              | some (kvs, rest6) => some ((String.mk kcs, v) :: kvs, rest6)
            | c :: rest5 =>
              if c = rbrace then some ([(String.mk kcs, v)], rest5) else none
            | [] => none
        | _ => none
    | _ => none

end

/-- Embedding of `json.loads` on the supported grammar fragment: parse one
value and require the remaining input to be whitespace. -/
def jsonLoads (s : String) : Option JsonValue :=
  let cs := s.toList
  match parseValue (cs.length + 1) cs with
  | none => none
  | some (j, rest) => if (skipWs rest).isEmpty then some j else none

/-! Embedding of `json.dumps(obj, indent=4)`: the serializer used by both
output paths of `main` (`json.dump` to a file writes exactly the characters
`json.dumps` returns).  Fuel bounds the nesting depth; `jsonFuel` computes a
sufficient bound from the value itself. -/

def spacesN (n : Nat) : String := String.mk (List.replicate n ' ')

def escapeChar (c : Char) : String :=
  if c = '"' then "\\\""
  else if c = '\\' then "\\\\"
  else if c = '\n' then "\\n"
  else if c = '\t' then "\\t"
  else if c = '\r' then "\\r"
  else String.singleton c

def escapeString (s : String) : String :=
  "\"" ++ String.join (s.toList.map escapeChar) ++ "\""

def jsonSerF : Nat → Nat → JsonValue → String
  | 0, _, _ => ""
  | fuel + 1, ind, j =>
    match j with
    | .null => "null"
    | .bool true => "true"
    | .bool false => "false"
    | .num n => toString n
    | .str s => escapeString s
    | .arr [] => "[]"
    | .arr (x :: xs) =>
      let items := (x :: xs).map (fun v => spacesN (ind + 4) ++ jsonSerF fuel (ind + 4) v)
      "[\n" ++ String.intercalate ",\n" items ++ "\n" ++ spacesN ind ++ "]"
    | .obj [] => String.singleton lbrace ++ String.singleton rbrace
    | .obj (kv :: kvs) =>
      let items := (kv :: kvs).map
        (fun m => spacesN (ind + 4) ++ escapeString m.1 ++ ": " ++ jsonSerF fuel (ind + 4) m.2)
      String.singleton lbrace ++ "\n" ++ String.intercalate ",\n" items ++ "\n" ++
        spacesN ind ++ String.singleton rbrace

mutual

/-- Fuel bound for serialization: strictly dominates the nesting depth. -/
def jsonFuel : JsonValue → Nat
  | .null => 1
  | .bool _ => 1
  | .num _ => 1
  | .str _ => 1
  | .arr xs => 1 + jsonFuelItems xs
  | .obj kvs => 1 + jsonFuelMembers kvs

def jsonFuelItems : List JsonValue → Nat
  | [] => 0
  | x :: xs => max (jsonFuel x) (jsonFuelItems xs)

def jsonFuelMembers : List (String × JsonValue) → Nat
  | [] => 0
  | kv :: kvs => max (jsonFuel kv.2) (jsonFuelMembers kvs)

end

/-- Embedding of `json.dumps(j, indent=4)`; the fuel never runs out. -/
def json_dumps (j : JsonValue) : String := jsonSerF (jsonFuel j) 0 j

/-! Python exceptions raised inside the `try` block of `scan_endpoint`, with
the relevant part of the class hierarchy.  Under requests 2.27+ the exception
raised by `response.json()` on an undecodable body is
`requests.exceptions.JSONDecodeError`, which inherits from
`InvalidJSONError` (hence from `RequestException`) and from
`json.JSONDecodeError`. -/

inductive PyExc : Type where
  | httpError : String → PyExc
  | timeoutError : String → PyExc
  | connectionError : String → PyExc
  | jsonDecodeError : String → PyExc
  | keyError : String → PyExc
  | otherError : String → PyExc
deriving DecidableEq

/-- Membership in the `requests.exceptions.RequestException` class. -/
def PyExc.isRequestException : PyExc → Bool
  | .httpError _ => true
  | .timeoutError _ => true
  | .connectionError _ => true
  | .jsonDecodeError _ => true
  | .keyError _ => false
  | .otherError _ => false

/-- Membership in the `json.JSONDecodeError` class. -/
def PyExc.isJSONDecodeError : PyExc → Bool
  | .jsonDecodeError _ => true
  | _ => false

/-- Membership in the `Exception` class: every exception this program can
raise is an `Exception` subclass. -/
def PyExc.isException : PyExc → Bool
  | _ => true

/-- Embedding of the Python `str()` of an exception, as interpolated by the
f-strings of the handlers (`str` of a `KeyError` is the `repr` of the key). -/
def excStr : PyExc → String
  | .httpError m => m
  | .timeoutError m => m
  | .connectionError m => m
  | .jsonDecodeError m => m
  | .keyError k => "\x27" ++ k ++ "\x27"
  | .otherError m => m

/-! The HTTP world: one GET request and its outcome, decided by an oracle. -/

/-- Headers dictionary, as an association list. -/
abbrev Headers : Type := List (String × String)

structure HttpRequest : Type where
  url : String
  timeout : Int
  headers : Option Headers
  allowRedirects : Bool

/-- Outcome of `requests.get`: a response, or a raised
`requests.exceptions` error (timeout, connection failure), or some other
unexpected exception. -/
inductive NetOutcome : Type where
  | response : Nat → String → NetOutcome
  | timeoutErr : String → NetOutcome
  | connectionErr : String → NetOutcome
  | otherErr : String → NetOutcome

/-- The network oracle: what the world answers to each GET request. -/
abbrev Net : Type := HttpRequest → NetOutcome

/-! The `MetadataScanner` class. -/

/-- Value of the `self.metadata_endpoints` dictionary set in `__init__`,
in insertion order. -/
def metadata_endpoints : List (String × String) :=
  [("AWS", "http://169.254.169.254/latest/meta-data/"),
   ("Azure", "http://169.254.169.254/metadata/instance?api-version=2020-09-01"),
   ("GCP", "http://metadata.google.internal/computeMetadata/v1/")]

structure MetadataScanner : Type where
  timeout : Int
  user_agent : String
  metadata_endpoints : List (String × String)

/-- Embedding of `MetadataScanner.__init__`. -/
def mkMetadataScanner (timeout : Int) (user_agent : String) : MetadataScanner :=
  { timeout := timeout, user_agent := user_agent,
    metadata_endpoints := metadata_endpoints }

/-- Header-injection logic of `scan_endpoint` (lines 44 to 49): the provider
header is injected only when the `headers` argument is `None`. -/
def effectiveHeaders (cloud_provider : String) (headers : Option Headers) : Option Headers :=
  if cloud_provider == "GCP" then
    match headers with
    | none => some [("Metadata-Flavor", "Google")]
    | some h => some h
  else if cloud_provider == "Azure" then
    match headers with
    | none => some [("Metadata", "true")]
    | some h => some h
  else headers

/-- The GET request `scan_endpoint` issues for a provider (when the URL
lookup succeeds): the fixed URL, the configured timeout, the effective
headers, and `allow_redirects=False`. -/
def builtRequest (s : MetadataScanner) (cloud_provider : String) (headers : Option Headers) :
    Option HttpRequest :=
  (s.metadata_endpoints.lookup cloud_provider).map (fun url =>
    { url := url, timeout := s.timeout,
      headers := effectiveHeaders cloud_provider headers, allowRedirects := false })

/-- Message carried by the `HTTPError` that `requests` attaches to a bad
status (the exact text is a faithful abbreviation of the requests message;
no claim depends on its content). -/
def raiseForStatusMsg (status : Nat) (url : String) : String :=
  if status < 500 then toString status ++ " Client Error for url: " ++ url
  else toString status ++ " Server Error for url: " ++ url

/-- Embedding of `response.raise_for_status()`: raises `HTTPError` exactly
when the status code is in [400, 600). -/
def raise_for_status (status : Nat) (url : String) : Except PyExc Unit :=
  if 400 ≤ status ∧ status < 600 then .error (.httpError (raiseForStatusMsg status url))
  else .ok ()

/-- Representative message of a `JSONDecodeError` (the position data of the
real message is immaterial to every claim). -/
def jsonDecodeErrMsg : String := "Expecting value: line 1 column 1 (char 0)"

/-- Values a probe can record: `response.text` (a string) or the object
`response.json()` returned. -/
inductive PyValue : Type where
  | str : String → PyValue
  | json : JsonValue → PyValue

def PyValue.isStr : PyValue → Bool
  | .str _ => true
  | .json _ => false

/-- The `try` block of `scan_endpoint` (lines 42 to 62): URL lookup (a
`KeyError` when the provider is not a key), header injection, the GET with
`allow_redirects=False`, `raise_for_status`, and for Azure the JSON decode
of the body. -/
def scan_endpoint_try (s : MetadataScanner) (net : Net) (cloud_provider : String)
    (headers : Option Headers) : Except PyExc PyValue :=
  match builtRequest s cloud_provider headers with
  | none => .error (.keyError cloud_provider)
  | some req =>
    match net req with
    | .timeoutErr m => .error (.timeoutError m)
    | .connectionErr m => .error (.connectionError m)
    | .otherErr m => .error (.otherError m)
    | .response status body =>
      match raise_for_status status req.url with
      | .error e => .error e
      | .ok _ =>
        if cloud_provider == "Azure" then
          match jsonLoads body with
          | none => .error (.jsonDecodeError jsonDecodeErrMsg)
          | some j => .ok (.json j)
        else .ok (.str body)

/-- First `except` clause: `except requests.exceptions.RequestException`. -/
def requestExceptionHandler (cloud_provider : String) (e : PyExc) : Option String :=
  if e.isRequestException then
    some ("Error accessing " ++ cloud_provider ++ " metadata: " ++ excStr e)
  else none

/-- Second `except` clause: `except json.JSONDecodeError`. -/
def jsonDecodeHandler (cloud_provider : String) (e : PyExc) : Option String :=
  if e.isJSONDecodeError then
    some ("Error decoding JSON response from " ++ cloud_provider ++ ": " ++ excStr e)
  else none

/-- Third `except` clause: `except Exception`. -/
def catchAllHandler (e : PyExc) : Option String :=
  if e.isException then some ("An unexpected error occurred: " ++ excStr e)
  else none

/-- The handler chain of `scan_endpoint`: Python tries the clauses in
source order and the first whose class matches wins. -/
def handleException (cloud_provider : String) (e : PyExc) : Option String :=
  match requestExceptionHandler cloud_provider e with
  | some m => some m
  | none =>
    match jsonDecodeHandler cloud_provider e with
    | some m => some m
    | none => catchAllHandler e

/-- Embedding of `MetadataScanner.scan_endpoint`.  An uncaught exception
would propagate as `.error`; a normal return is `.ok (success, data)`. -/
def scan_endpoint (s : MetadataScanner) (net : Net) (cloud_provider : String)
    (headers : Option Headers) : Except PyExc (Bool × PyValue) :=
  match scan_endpoint_try s net cloud_provider headers with
  | .ok metadata => .ok (true, metadata)
  | .error e =>
    match handleException cloud_provider e with
    | some msg => .ok (false, .str msg)
    | none => .error e

/-- The message the handler chain produces for an exception (total form). -/
def handleMsg (cloud_provider : String) (e : PyExc) : String :=
  if e.isRequestException then
    "Error accessing " ++ cloud_provider ++ " metadata: " ++ excStr e
  else if e.isJSONDecodeError then
    "Error decoding JSON response from " ++ cloud_provider ++ ": " ++ excStr e
  else "An unexpected error occurred: " ++ excStr e

/-- The value `scan_endpoint` returns, as a total function. -/
def scan_endpoint_run (s : MetadataScanner) (net : Net) (cloud_provider : String)
    (headers : Option Headers) : Bool × PyValue :=
  match scan_endpoint_try s net cloud_provider headers with
  | .ok metadata => (true, metadata)
  | .error e => (false, .str (handleMsg cloud_provider e))

/-! Result aggregation: Python builds a `dict` mapping provider name to
`{"success": ..., "data": ...}`. -/

/-- One `{"success": bool, "data": value}` entry of the results dictionary. -/
structure ProbeEntry : Type where
  success : Bool
  data : PyValue

def probeEntryOf (r : Bool × PyValue) : ProbeEntry :=
  { success := r.1, data := r.2 }

/-- The results dictionary, as an association list in insertion order. -/
abbrev ScanReport : Type := List (String × ProbeEntry)

/-- Key membership in a Python dict modelled as an association list. -/
def containsKey (d : List (String × ProbeEntry)) (k : String) : Bool :=
  d.any (fun kv => kv.1 == k)

/-- Python dict assignment `d[k] = v`: overwrite in place when the key
exists, append otherwise. -/
def dictInsert (d : List (String × ProbeEntry)) (k : String) (v : ProbeEntry) :
    List (String × ProbeEntry) :=
  if containsKey d k then d.map (fun kv => if kv.1 == k then (k, v) else kv)
  else d ++ [(k, v)]

/-- The scanning loop shared by `scan_all_endpoints` (lines 84 to 87) and
the `--providers` branch of `main` (lines 152 to 155): probe each provider
in order with default headers and record its entry. -/
def scan_loop (s : MetadataScanner) (net : Net) : List String → ScanReport →
    Except PyExc ScanReport
  | [], results => .ok results
  | p :: rest, results =>
    match scan_endpoint s net p none with
    | .error e => .error e
    | .ok r => scan_loop s net rest (dictInsert results p (probeEntryOf r))

/-- Embedding of `MetadataScanner.scan_all_endpoints`: iterates over
`self.metadata_endpoints.items()` in insertion order. -/
def scan_all_endpoints (s : MetadataScanner) (net : Net) : Except PyExc ScanReport :=
  scan_loop s net (s.metadata_endpoints.map Prod.fst) []

/-! Serialization of the report (`json.dump` / `json.dumps`, both with
`indent=4`, over the same dictionary). -/

def pyToJson : PyValue → JsonValue
  | .str s => .str s
  | .json j => j

def probeEntryToJson (e : ProbeEntry) : JsonValue :=
  .obj [("success", .bool e.success), ("data", pyToJson e.data)]

def reportToJson (r : ScanReport) : JsonValue :=
  .obj (r.map (fun kv => (kv.1, probeEntryToJson kv.2)))

/-! The CLI layer (`main`, lines 137 to 169). -/

/-- Observable effects of one run of `main`. -/
structure MainResult : Type where
  exitCode : Nat
  httpRequests : List HttpRequest
  results : Option ScanReport
  stdoutLines : List String
  fileWrites : List (String × String)

/-- The filesystem oracle: the error message raised when opening the given
path for writing fails, or `none` when the write succeeds. -/
abbrev Fs : Type := String → Option String

/-- Python truthiness of `args.providers` in `if args.providers:`. -/
def providersTruthy : Option (List String) → Bool
  | none => false
  | some ps => !ps.isEmpty

/-- The HTTP requests one call of `scan_endpoint` issues: exactly one when
the URL lookup succeeds, none when it raises `KeyError` first. -/
def scan_endpoint_requests (s : MetadataScanner) (cloud_provider : String)
    (headers : Option Headers) : List HttpRequest :=
  match builtRequest s cloud_provider headers with
  | some req => [req]
  | none => []

/-- Embedding of `main`: timeout validation, scanner construction, the
provider-subset or scan-all branch, and JSON output to a file or stdout.
The four value parameters are the parsed CLI options `--timeout`,
`--user-agent`, `--output` and `--providers` (argparse gives `--timeout`
the default 5, `--user-agent` the default scanner string, and leaves
`--output` and `--providers` as `None` when absent). -/
def main (net : Net) (fs : Fs) (timeout : Int) (user_agent : String)
    (output : Option String) (providers : Option (List String)) :
    Except PyExc MainResult :=
  if timeout ≤ 0 then
    .ok { exitCode := 1, httpRequests := [], results := none,
          stdoutLines := ["Error: Timeout value must be greater than 0."],
          fileWrites := [] }
  else
    let scanner := mkMetadataScanner timeout user_agent
    let sel : List String := providers.getD []
    let probed : List String :=
      if providersTruthy providers then sel
      else scanner.metadata_endpoints.map Prod.fst
    (if providersTruthy providers then scan_loop scanner net sel []
     else scan_all_endpoints scanner net).bind (fun results =>
      let reqs := probed.flatMap (fun p => scan_endpoint_requests scanner p none)
      let out := json_dumps (reportToJson results)
      match output with
      | some path =>
        match fs path with
        | none =>
          .ok { exitCode := 0, httpRequests := reqs, results := some results,
                stdoutLines := ["Scan results saved to " ++ path],
                fileWrites := [(path, out)] }
        | some err =>
          .ok { exitCode := 1, httpRequests := reqs, results := some results,
                stdoutLines := ["Error writing to output file: " ++ err],
                fileWrites := [] }
      | none =>
          .ok { exitCode := 0, httpRequests := reqs, results := some results,
                stdoutLines := [out], fileWrites := [] })

/-! Concrete worlds used to evaluate the embedding on specific inputs. -/

/-- The argparse default of `--user-agent`. -/
def defaultUserAgent : String := "vuln-Cloud-Metadata-Scanner/1.0"

/-- A world whose every endpoint answers with a 301 redirect. -/
def netRedirect : Net := fun _ => NetOutcome.response 301 "redirect-body"

/-- A world whose every endpoint answers 404. -/
def net404 : Net := fun _ => NetOutcome.response 404 "denied"

/-- A world whose every endpoint answers 200 with a body that is not JSON. -/
def netNonJson : Net := fun _ => NetOutcome.response 200 "notjson"

/-- A world whose every endpoint answers 200 with the body `\x7b\x7d`
(an empty JSON object). -/
def netEmptyObj : Net := fun _ => NetOutcome.response 200 "\x7b\x7d"

/-- A world whose every endpoint answers 200 with a plain text body. -/
def netPlain : Net := fun _ => NetOutcome.response 200 "ok-body"

/-- A world where every connection is refused. -/
def netConnRefused : Net := fun _ => NetOutcome.connectionErr "Connection refused"

/-- A filesystem where every write succeeds. -/
def fsAllOk : Fs := fun _ => none

/-- The request the scanner builds for AWS with timeout 5 and default
headers. -/
def awsReq5 : HttpRequest :=
  { url := "http://169.254.169.254/latest/meta-data/", timeout := 5,
    headers := none, allowRedirects := false }

/-! Basic lemmas about the embedding. -/

theorem handleException_eq (p : String) (e : PyExc) :
    handleException p e = some (handleMsg p e) := by
  cases e <;> rfl

theorem scan_endpoint_run_eq (s : MetadataScanner) (net : Net) (p : String)
    (h : Option Headers) :
    scan_endpoint s net p h = Except.ok (scan_endpoint_run s net p h) := by
  unfold scan_endpoint scan_endpoint_run
  cases htry : scan_endpoint_try s net p h with
  | ok m => rfl
  | error e => simp [handleException_eq]

theorem dictInsert_notMem (d : List (String × ProbeEntry)) (k : String) (v : ProbeEntry)
    (h : containsKey d k = false) : dictInsert d k v = d ++ [(k, v)] := by
  simp [dictInsert, h]

theorem containsKey_append (d1 d2 : List (String × ProbeEntry)) (k : String) :
    containsKey (d1 ++ d2) k = (containsKey d1 k || containsKey d2 k) := by
  simp [containsKey, List.any_append]

theorem scan_loop_total (s : MetadataScanner) (net : Net) :
    ∀ (ps : List String) (acc : ScanReport), ∃ rs, scan_loop s net ps acc = Except.ok rs := by
  intro ps
  induction ps with
  | nil => exact fun acc => ⟨acc, rfl⟩
  | cons p rest ih =>
    intro acc
    rw [scan_loop, scan_endpoint_run_eq]
    exact ih _

theorem scan_loop_keys (s : MetadataScanner) (net : Net) :
    ∀ (ps : List String) (acc : ScanReport), ps.Nodup →
      (∀ p ∈ ps, containsKey acc p = false) →
      scan_loop s net ps acc =
        Except.ok (acc ++ ps.map (fun p => (p, probeEntryOf (scan_endpoint_run s net p none)))) := by
  intro ps
  induction ps with
  | nil => intro acc _ _; simp [scan_loop]
  | cons p rest ih =>
    intro acc hnd hdis
    rw [scan_loop, scan_endpoint_run_eq]
    show scan_loop s net rest (dictInsert acc p _) = _
    rw [dictInsert_notMem _ _ _ (hdis p (List.mem_cons_self p rest))]
    rw [ih _ (List.Nodup.of_cons hnd) ?_]
    · simp
    · intro q hq
      have h1 : containsKey acc q = false := hdis q (List.mem_cons_of_mem p hq)
      have h2 : p ≠ q := fun hpq => (List.nodup_cons.mp hnd).1 (hpq ▸ hq)
      rw [containsKey_append, h1]
      simp [containsKey, h2]

theorem builtRequest_fields (s : MetadataScanner) (p : String) (h : Option Headers)
    (req : HttpRequest) (hreq : builtRequest s p h = some req) :
    req.timeout = s.timeout ∧ req.headers = effectiveHeaders p h ∧
      req.allowRedirects = false ∧ s.metadata_endpoints.lookup p = some req.url := by
  unfold builtRequest at hreq
  cases hlk : s.metadata_endpoints.lookup p with
  | none => rw [hlk] at hreq; simp at hreq
  | some url =>
    rw [hlk] at hreq
    simp only [Option.map_some'] at hreq
    injection hreq with h2
    subst h2
    exact ⟨rfl, rfl, rfl, rfl⟩

theorem effectiveHeaders_some (p : String) (hs : Headers) :
    effectiveHeaders p (some hs) = some hs := by
  unfold effectiveHeaders
  split
  · rfl
  · split <;> rfl

theorem try_ok_azure (s : MetadataScanner) (net : Net) (p : String) (h : Option Headers)
    (m : PyValue) (htry : scan_endpoint_try s net p h = Except.ok m)
    (hAz : (p == "Azure") = true) : ∃ j, m = PyValue.json j := by
  unfold scan_endpoint_try at htry
  simp only [hAz, if_true] at htry
  split at htry
  · simp at htry
  · split at htry
    · simp at htry
    · simp at htry
    · simp at htry
    · split at htry
      · simp at htry
      · split at htry
        · simp at htry
        · rename_i j hj
          injection htry with h1
          exact ⟨j, h1.symm⟩

theorem try_ok_other (s : MetadataScanner) (net : Net) (p : String) (h : Option Headers)
    (m : PyValue) (htry : scan_endpoint_try s net p h = Except.ok m)
    (hAz2 : (p == "Azure") = false) : ∃ body, m = PyValue.str body := by
  unfold scan_endpoint_try at htry
  simp only [hAz2, Bool.false_eq_true, if_false] at htry
  split at htry
  · simp at htry
  · split at htry
    · simp at htry
    · simp at htry
    · simp at htry
    · split at htry
      · simp at htry
      · injection htry with h1
        exact ⟨_, h1.symm⟩

/-! The claims. -/

/-- C1 counterexample: a 301 redirect answer to the AWS probe yields
`success=true` with the redirect response body, refuting the claim that any
non-2xx status, 3xx included, yields `success=false`
(`raise_for_status` only raises for 4xx/5xx). -/
theorem C1_counterexample :
    scan_endpoint (mkMetadataScanner 5 defaultUserAgent) netRedirect "AWS" none =
      Except.ok (true, PyValue.str "redirect-body") := rfl

/-- C1 (amended): for every provider, the GET is issued with redirects
disallowed, and a response with a 4xx or 5xx status (the statuses
`raise_for_status` raises on) yields `success=false` with the error
description; a 3xx status is not treated as a failure. -/
theorem C1_theorem (t : Int) (u : String) (net : Net) (p : String) (h : Option Headers)
    (req : HttpRequest) (hreq : builtRequest (mkMetadataScanner t u) p h = some req)
    (status : Nat) (body : String) (hnet : net req = NetOutcome.response status body)
    (h4 : 400 ≤ status) (h6 : status < 600) :
    req.allowRedirects = false ∧
    scan_endpoint (mkMetadataScanner t u) net p h =
      Except.ok (false, PyValue.str ("Error accessing " ++ p ++ " metadata: " ++
        raiseForStatusMsg status req.url)) := by
  refine ⟨(builtRequest_fields _ _ _ _ hreq).2.2.1, ?_⟩
  unfold scan_endpoint scan_endpoint_try
  rw [hreq]
  dsimp only
  rw [hnet]
  dsimp only
  rw [show raise_for_status status req.url =
      Except.error (PyExc.httpError (raiseForStatusMsg status req.url)) from by
    unfold raise_for_status; rw [if_pos ⟨h4, h6⟩]]
  rfl

/-- C1 witness: the AWS probe against a world answering 404. -/
theorem C1_witness :
    awsReq5.allowRedirects = false ∧
    scan_endpoint (mkMetadataScanner 5 defaultUserAgent) net404 "AWS" none =
      Except.ok (false, PyValue.str ("Error accessing " ++ "AWS" ++ " metadata: " ++
        raiseForStatusMsg 404 awsReq5.url)) :=
  C1_theorem 5 defaultUserAgent net404 "AWS" none awsReq5 rfl 404 "denied" rfl
    (by decide) (by decide)

/-- C2: the configured user-agent string is never placed in the headers of
any request the scanner issues — with the default `headers=None` argument
the request carries either no headers dictionary at all (AWS) or exactly
the injected provider header (GCP, Azure), and in particular never a
`User-Agent` entry.  `self.user_agent` is stored by `__init__` and then
never read, so the claim that it is sent as a request header fails. -/
theorem C2_theorem (t : Int) (u : String) (p : String) (req : HttpRequest)
    (hreq : builtRequest (mkMetadataScanner t u) p none = some req) :
    (req.headers = none ∨ req.headers = some [("Metadata-Flavor", "Google")] ∨
      req.headers = some [("Metadata", "true")]) ∧
    (∀ hs, req.headers = some hs → ∀ kv ∈ hs, (kv.1 == "User-Agent") = false) := by
  have hh := (builtRequest_fields _ _ _ _ hreq).2.1
  have hcases : req.headers = none ∨ req.headers = some [("Metadata-Flavor", "Google")] ∨
      req.headers = some [("Metadata", "true")] := by
    rw [hh]
    unfold effectiveHeaders
    split
    · right; left; rfl
    · split
      · right; right; rfl
      · left; rfl
  refine ⟨hcases, fun hs hhs kv hkv => ?_⟩
  rcases hcases with hc | hc | hc <;> rw [hc] at hhs
  · exact absurd hhs (by simp)
  · cases hhs
    simp at hkv
    subst hkv
    decide
  · cases hhs
    simp at hkv
    subst hkv
    decide

/-- C2 witness: the default AWS probe request carries no headers at all,
hence no user-agent header. -/
theorem C2_witness :
    (awsReq5.headers = none ∨ awsReq5.headers = some [("Metadata-Flavor", "Google")] ∨
      awsReq5.headers = some [("Metadata", "true")]) ∧
    (∀ hs, awsReq5.headers = some hs → ∀ kv ∈ hs, (kv.1 == "User-Agent") = false) :=
  C2_theorem 5 defaultUserAgent "AWS" awsReq5 rfl

/-- C3: an Azure probe answered 200 with an undecodable body returns
`success=false` with the generic request-error message, not the
decoding-specific one — `requests.exceptions.JSONDecodeError` is a
`RequestException`, so the first handler catches it and the dedicated
`json.JSONDecodeError` handler never runs. -/
theorem C3_theorem :
    scan_endpoint (mkMetadataScanner 5 defaultUserAgent) netNonJson "Azure" none =
      Except.ok (false, PyValue.str
        ("Error accessing Azure metadata: " ++ jsonDecodeErrMsg)) ∧
    (("Error accessing Azure metadata: " ++ jsonDecodeErrMsg ==
      "Error decoding JSON response from Azure: " ++ jsonDecodeErrMsg) = false) :=
  ⟨rfl, by decide⟩

/-- C4 counterexample: a successful Azure probe stores the parsed JSON
value itself, not a string — refuting the claim that the data field is
always a string (re-stringified JSON for Azure). -/
theorem C4_counterexample :
    scan_endpoint (mkMetadataScanner 5 defaultUserAgent) netEmptyObj "Azure" none =
      Except.ok (true, PyValue.json (JsonValue.obj [])) ∧
    PyValue.isStr (PyValue.json (JsonValue.obj [])) = false :=
  ⟨rfl, rfl⟩

/-- C4 (amended): the data field is a string on every failure (the error
message) and on every AWS/GCP success (the raw body), but on an Azure
success it is the parsed JSON value, never re-stringified. -/
theorem C4_theorem (t : Int) (u : String) (net : Net) (p : String) (h : Option Headers)
    (b : Bool) (d : PyValue)
    (hres : scan_endpoint (mkMetadataScanner t u) net p h = Except.ok (b, d)) :
    (b = false → ∃ msg, d = PyValue.str msg) ∧
    ((p == "Azure") = false → ∃ body, d = PyValue.str body) ∧
    (b = true → (p == "Azure") = true → ∃ j, d = PyValue.json j) := by
  unfold scan_endpoint at hres
  cases htry : scan_endpoint_try (mkMetadataScanner t u) net p h with
  | error e =>
    rw [htry] at hres
    dsimp only at hres
    rw [handleException_eq] at hres
    dsimp only at hres
    injection hres with h1
    cases h1
    exact ⟨fun _ => ⟨_, rfl⟩, fun _ => ⟨_, rfl⟩, fun hb => by cases hb⟩
  | ok m =>
    rw [htry] at hres
    dsimp only at hres
    injection hres with h1
    cases h1
    refine ⟨?_, ?_, ?_⟩
    · exact fun hb => nomatch hb
    · exact fun hAz2 => try_ok_other _ _ _ _ _ htry hAz2
    · exact fun _ hAz => try_ok_azure _ _ _ _ _ htry hAz

/-- C4 witness: a successful AWS probe with a plain body. -/
theorem C4_witness :
    (true = false → ∃ msg, PyValue.str "ok-body" = PyValue.str msg) ∧
    (("AWS" == "Azure") = false → ∃ body, PyValue.str "ok-body" = PyValue.str body) ∧
    (true = true → ("AWS" == "Azure") = true → ∃ j, PyValue.str "ok-body" = PyValue.json j) :=
  C4_theorem 5 defaultUserAgent netPlain "AWS" none true (PyValue.str "ok-body") rfl

/-- C5: for every network behaviour, `scan_all_endpoints` returns a report
with exactly one entry per provider, in the fixed order AWS, Azure, GCP,
each entry being the outcome of that provider's own probe — no failure of
one provider prevents the others from being probed. -/
theorem C5_theorem (t : Int) (u : String) (net : Net) :
    scan_all_endpoints (mkMetadataScanner t u) net = Except.ok
      [("AWS", probeEntryOf (scan_endpoint_run (mkMetadataScanner t u) net "AWS" none)),
       ("Azure", probeEntryOf (scan_endpoint_run (mkMetadataScanner t u) net "Azure" none)),
       ("GCP", probeEntryOf (scan_endpoint_run (mkMetadataScanner t u) net "GCP" none))] ∧
    (∀ p, scan_endpoint (mkMetadataScanner t u) net p none =
      Except.ok (scan_endpoint_run (mkMetadataScanner t u) net p none)) := by
  refine ⟨?_, fun p => scan_endpoint_run_eq _ _ _ _⟩
  have h := scan_loop_keys (mkMetadataScanner t u) net ["AWS", "Azure", "GCP"] []
    (by decide) (fun p _ => rfl)
  unfold scan_all_endpoints
  rw [show (mkMetadataScanner t u).metadata_endpoints.map Prod.fst
      = ["AWS", "Azure", "GCP"] from rfl, h]
  rfl

/-- C6: whenever the timeout is not positive, `main` performs no HTTP
request, builds no scanner results, prints the validation error and exits
with code 1. -/
theorem C6_theorem (net : Net) (fs : Fs) (t : Int) (u : String) (out : Option String)
    (ps : Option (List String)) (h : t ≤ 0) :
    main net fs t u out ps = Except.ok
      { exitCode := 1, httpRequests := [], results := none,
        stdoutLines := ["Error: Timeout value must be greater than 0."],
        fileWrites := [] } := by
  unfold main
  rw [if_pos h]

/-- C6 witness: timeout 0 on an otherwise healthy world. -/
theorem C6_witness :
    main netConnRefused fsAllOk 0 defaultUserAgent none none = Except.ok
      { exitCode := 1, httpRequests := [], results := none,
        stdoutLines := ["Error: Timeout value must be greater than 0."],
        fileWrites := [] } :=
  C6_theorem netConnRefused fsAllOk 0 defaultUserAgent none none (by decide)

/-- C7: with an explicit provider subset, `main` probes exactly those
providers, issuing exactly one request attempt per listed provider in the
user-specified order, and the report maps exactly those keys in that
order. -/
theorem C7_theorem (net : Net) (fs : Fs) (t : Int) (u : String) (out : Option String)
    (ps : List String) (ht : 0 < t) (hne : ps ≠ []) (hnd : ps.Nodup)
    (hsub : ∀ p ∈ ps, p ∈ ["AWS", "Azure", "GCP"]) :
    (∃ r, main net fs t u out (some ps) = Except.ok r ∧
      r.results = some (ps.map (fun p =>
        (p, probeEntryOf (scan_endpoint_run (mkMetadataScanner t u) net p none)))) ∧
      r.httpRequests = ps.flatMap
        (fun p => scan_endpoint_requests (mkMetadataScanner t u) p none)) ∧
    (ps.map (fun p =>
      (p, probeEntryOf (scan_endpoint_run (mkMetadataScanner t u) net p none)))).map Prod.fst
      = ps := by
  have hkeys : (ps.map (fun p =>
      (p, probeEntryOf (scan_endpoint_run (mkMetadataScanner t u) net p none)))).map Prod.fst
      = ps := by
    simp
    rw [show (Prod.fst ∘ fun p =>
      (p, probeEntryOf (scan_endpoint_run (mkMetadataScanner t u) net p none)))
      = id from rfl, List.map_id]
  refine ⟨?_, hkeys⟩
  have hts : ¬ (t ≤ 0) := not_le.mpr ht
  have htr : providersTruthy (some ps) = true := by
    cases ps with
    | nil => exact absurd rfl hne
    | cons a l => rfl
  have hscan := scan_loop_keys (mkMetadataScanner t u) net ps [] hnd (fun p _ => rfl)
  rw [List.nil_append] at hscan
  unfold main
  rw [if_neg hts]
  dsimp only [Option.getD]
  rw [if_pos htr, if_pos htr]
  rw [hscan]
  dsimp only [Except.bind]
  cases out with
  | none => exact ⟨_, rfl, rfl, rfl⟩
  | some path =>
    dsimp only
    cases hfs : fs path with
    | none => exact ⟨_, rfl, rfl, rfl⟩
    | some err => exact ⟨_, rfl, rfl, rfl⟩

/-- C7 witness: probing only AWS on a world that refuses connections. -/
theorem C7_witness :
    (∃ r, main netConnRefused fsAllOk 5 defaultUserAgent none (some ["AWS"]) = Except.ok r ∧
      r.results = some (["AWS"].map (fun p =>
        (p, probeEntryOf (scan_endpoint_run (mkMetadataScanner 5 defaultUserAgent)
          netConnRefused p none)))) ∧
      r.httpRequests = ["AWS"].flatMap
        (fun p => scan_endpoint_requests (mkMetadataScanner 5 defaultUserAgent) p none)) ∧
    (["AWS"].map (fun p =>
      (p, probeEntryOf (scan_endpoint_run (mkMetadataScanner 5 defaultUserAgent)
        netConnRefused p none)))).map Prod.fst = ["AWS"] :=
  C7_theorem netConnRefused fsAllOk 5 defaultUserAgent none ["AWS"]
    (by decide) (by decide) (by decide) (by decide)

/-- C9: for the same configuration and world, the run with `--output path`
writes to the file exactly the string that the run without `--output`
prints to stdout — both paths serialize the identical report, so the file
parses back into the same structure stdout would show. -/
theorem C9_theorem (net : Net) (fs : Fs) (t : Int) (u : String)
    (ps : Option (List String)) (path : String)
    (ht : 0 < t) (hw : fs path = none) :
    ∃ rF rS content,
      main net fs t u (some path) ps = Except.ok rF ∧
      main net fs t u none ps = Except.ok rS ∧
      rF.fileWrites = [(path, content)] ∧ rS.stdoutLines = [content] ∧
      rF.exitCode = 0 ∧ rS.exitCode = 0 := by
  have hts : ¬ (t ≤ 0) := not_le.mpr ht
  obtain ⟨rs, hrs⟩ : ∃ rs,
      (if providersTruthy ps = true then
        scan_loop (mkMetadataScanner t u) net (ps.getD []) []
       else scan_all_endpoints (mkMetadataScanner t u) net) = Except.ok rs := by
    split
    · exact scan_loop_total _ _ _ _
    · exact scan_loop_total _ _ _ _
  unfold main
  rw [if_neg hts, if_neg hts]
  dsimp only
  rw [hrs]
  dsimp only [Except.bind]
  rw [hw]
  exact ⟨_, _, json_dumps (reportToJson rs), rfl, rfl, rfl, rfl, rfl, rfl⟩

/-- C9 witness: default full scan on a connection-refused world, output to
a file versus stdout. -/
theorem C9_witness :
    ∃ rF rS content,
      main netConnRefused fsAllOk 5 defaultUserAgent (some "out.json") none = Except.ok rF ∧
      main netConnRefused fsAllOk 5 defaultUserAgent none none = Except.ok rS ∧
      rF.fileWrites = [("out.json", content)] ∧ rS.stdoutLines = [content] ∧
      rF.exitCode = 0 ∧ rS.exitCode = 0 :=
  C9_theorem netConnRefused fsAllOk 5 defaultUserAgent none "out.json" (by decide) rfl

/-- C10: `scan_endpoint` never propagates an exception — every run returns
normally with a `(success, data)` pair, and in particular a provider
string that is not a key of the endpoint map is answered with
`success=false` and the catch-all `An unexpected error occurred` message
wrapping the `KeyError`. -/
theorem C10_theorem (t : Int) (u : String) (net : Net) (p : String) (h : Option Headers) :
    (∃ r, scan_endpoint (mkMetadataScanner t u) net p h = Except.ok r) ∧
    (metadata_endpoints.lookup p = none →
      scan_endpoint (mkMetadataScanner t u) net p h =
        Except.ok (false, PyValue.str
          ("An unexpected error occurred: " ++ excStr (PyExc.keyError p)))) := by
  constructor
  · exact ⟨_, scan_endpoint_run_eq _ _ _ _⟩
  · intro hlk
    unfold scan_endpoint scan_endpoint_try builtRequest
    rw [show (mkMetadataScanner t u).metadata_endpoints = metadata_endpoints from rfl, hlk]
    rfl

/-- C10 witness: a provider string outside the endpoint map. -/
theorem C10_witness :
    scan_endpoint (mkMetadataScanner 5 defaultUserAgent) netPlain "DigitalOcean" none =
      Except.ok (false, PyValue.str
        ("An unexpected error occurred: " ++ excStr (PyExc.keyError "DigitalOcean"))) :=
  (C10_theorem 5 defaultUserAgent netPlain "DigitalOcean" none).2 rfl

/-- C8: the scanner directs each probe at exactly that provider's fixed
URL; with no explicit headers argument it injects exactly the provider's
required header (GCP `Metadata-Flavor: Google`, Azure `Metadata: true`,
AWS none), and an explicitly supplied headers argument is used unchanged
with no injection. -/
theorem C8_theorem (t : Int) (u : String) (hs : Headers) :
    builtRequest (mkMetadataScanner t u) "AWS" none =
      some { url := "http://169.254.169.254/latest/meta-data/", timeout := t,
             headers := none, allowRedirects := false } ∧
    builtRequest (mkMetadataScanner t u) "Azure" none =
      some { url := "http://169.254.169.254/metadata/instance?api-version=2020-09-01",
             timeout := t, headers := some [("Metadata", "true")], allowRedirects := false } ∧
    builtRequest (mkMetadataScanner t u) "GCP" none =
      some { url := "http://metadata.google.internal/computeMetadata/v1/", timeout := t,
             headers := some [("Metadata-Flavor", "Google")], allowRedirects := false } ∧
    (∀ p req, builtRequest (mkMetadataScanner t u) p (some hs) = some req →
      req.headers = some hs) := by
  refine ⟨rfl, rfl, rfl, fun p req hreq => ?_⟩
  rw [(builtRequest_fields _ _ _ _ hreq).2.1, effectiveHeaders_some]

/-- C8 witness: an explicit headers argument on the GCP probe passes
through unchanged. -/
theorem C8_witness :
    ({ url := "http://metadata.google.internal/computeMetadata/v1/", timeout := 5,
       headers := some [("X-Test", "1")], allowRedirects := false } : HttpRequest).headers
      = some [("X-Test", "1")] :=
  (C8_theorem 5 defaultUserAgent [("X-Test", "1")]).2.2.2 "GCP" _ rfl

end VulnScan
